import Mathlib

/-!
Formal model of the qqublish build orchestration and status engine
(`qqublish.py`).  Paths follow `pathlib` pure-path semantics, the status
evaluator mirrors `BookBuilder.status`, and the build job mirrors the
celery task `do_update_github` together with the trigger `update_github`.
-/

namespace Qqublish

/-! Substring search: Python `needle in hay` on two `str` values. -/

/-- Boolean list-prefix test on character lists. -/
def isPre : List Char → List Char → Bool
  | [], _ => true
  | _ :: _, [] => false
  | a :: as, b :: bs => a == b && isPre as bs

/-- Boolean substring (contiguous) test on character lists. -/
def hasSub (needle : List Char) : List Char → Bool
  | [] => isPre needle []
  | b :: bs => isPre needle (b :: bs) || hasSub needle bs

/-- Python `needle in hay` for two `str` values: contiguous substring test. -/
def strContains (hay needle : String) : Bool :=
  hasSub needle.data hay.data

/-! Path model: `pathlib` pure POSIX paths.  A path is a flag for
absoluteness plus a component list; conversion from a string splits on
the separator and drops empty and single-dot segments, which is how
`pathlib` normalizes `a//b`, trailing separators and `a/./b`. -/

/-- Prepend a character to the first component of a split. -/
def consHead (c : Char) : List (List Char) → List (List Char)
  | [] => [[c]]
  | p :: ps => (c :: p) :: ps

/-- Split a character list on the path separator. -/
def splitSlash : List Char → List (List Char)
  | [] => [[]]
  | c :: cs =>
    if c = '/' then [] :: splitSlash cs
    else consHead c (splitSlash cs)

/-- Component list of a path string: split on the separator, dropping
empty and single-dot segments (pathlib keeps `..`). -/
def pathParts (s : String) : List String :=
  ((splitSlash s.data).filter fun p => !(p.isEmpty || p == ['.'])).map
    fun p => String.mk p

/-- A pure POSIX path: absoluteness flag plus component list. -/
structure PurePath where
  absolute : Bool
  parts : List String
deriving DecidableEq, Repr

/-- Interpret a string as a pure path. -/
def pathOf (s : String) : PurePath :=
  ⟨decide (s.data.head? = some '/'), pathParts s⟩

/-- The pathlib `/` operator: joining with an absolute operand resets the
path to that operand. -/
def PurePath.join (p : PurePath) (s : String) : PurePath :=
  if s.data.head? = some '/' then ⟨true, pathParts s⟩
  else ⟨p.absolute, p.parts ++ pathParts s⟩

/-! The data model: configuration, book builder, build status. -/

/-- Configuration values read from `app.config`. -/
structure Config where
  JAILPATH : String
  PUBLISHPATH : String
deriving DecidableEq, Repr

/-- A `BookBuilder` as constructed in the source: a `(service, book_id)`
identity plus the public base URL (every construction site in the source
passes a concrete string for `base_url`). -/
structure BookBuilder where
  book_id : String
  service : String
  base_url : String
deriving DecidableEq, Repr

/-- `BookBuilder.repodir`: `Path(JAILPATH) / service / book_id`. -/
def BookBuilder.repodir (b : BookBuilder) (cfg : Config) : PurePath :=
  ((pathOf cfg.JAILPATH).join b.service).join b.book_id

/-- `BookBuilder.lockfile`: `repodir / "lockfile"`. -/
def BookBuilder.lockfile (b : BookBuilder) (cfg : Config) : PurePath :=
  (b.repodir cfg).join "lockfile"

/-- `BookBuilder.logfile`: `repodir / "build.log"`. -/
def BookBuilder.logfile (b : BookBuilder) (cfg : Config) : PurePath :=
  (b.repodir cfg).join "build.log"

/-- `BookBuilder.clonedir`: `repodir / "clone"`. -/
def BookBuilder.clonedir (b : BookBuilder) (cfg : Config) : PurePath :=
  (b.repodir cfg).join "clone"

/-- `BookBuilder.outputdir`: `Path(PUBLISHPATH) / service / book_id`. -/
def BookBuilder.outputdir (b : BookBuilder) (cfg : Config) : PurePath :=
  ((pathOf cfg.PUBLISHPATH).join b.service).join b.book_id

/-- The `BuildStatus` named tuple.  The `timestamp` slot is declared
`Optional[str]` in the source but the constructor is always passed a
string: either the ISO-formatted mtime or the sentinel `"unknown"`. -/
structure BuildStatus where
  status : String
  log : Option String
  timestamp : String
  url : Option String
deriving DecidableEq, Repr

/-- The filesystem facts `BookBuilder.status` reads: lock-file existence,
log-file existence, the log text, and the log's ISO-formatted mtime. -/
structure FS where
  lockExists : Bool
  logExists : Bool
  logContent : String
  mtimeIso : String
deriving DecidableEq, Repr

/-- Python truthiness of an optional string: `None` and `""` are falsy. -/
def pyTruthy : Option String → Bool
  | none => false
  | some s => !s.data.isEmpty

/-- `BookBuilder.status`: read the log if present, then classify.  A
present lock file wins; otherwise a truthy log containing `"SUCCESS"`
yields `"complete"` with the base URL, a truthy log containing
`"FAILED"` yields `"failed"`, and everything else yields the literal
`"unkown"` (spelled as in the source).  The timestamp slot receives the
mtime when the log exists and the sentinel `"unknown"` otherwise. -/
def BookBuilder.status (b : BookBuilder) (fs : FS) : BuildStatus :=
  let log : Option String := if fs.logExists then some fs.logContent else none
  let su : String × Option String :=
    if fs.lockExists then ("in-progress", none)
    else if pyTruthy log && strContains fs.logContent "SUCCESS" then
      ("complete", some b.base_url)
    else if pyTruthy log && strContains fs.logContent "FAILED" then
      ("failed", none)
    else ("unkown", none)
  ⟨su.1, log, if fs.logExists then fs.mtimeIso else "unknown", su.2⟩

/-! The build job `do_update_github` and the trigger `update_github`. -/

/-- Python exceptions that can reach the outer handler of the job. -/
inductive PyExc
  | typeError
  | calledProcess (display : String)
  | generic (display : String)
  | buildFailed
deriving DecidableEq, Repr

/-- Display text `str(e)` of an exception.  `buildFailed` is the
`Exception` raised on a non-zero container exit status; its message is
the concatenation of the two adjacent literals in the source. -/
def PyExc.pyStr : PyExc → String
  | .typeError => "a bytes-like object is required, not str"
  | .calledProcess d => d
  | .generic d => d
  | .buildFailed => "FAILED: Process terminated with non-zero status"

/-- Result of one `subprocess.check_output` call.  The call requests no
text mode, so the captured combined stdout/stderr is a `bytes` value
(the success path decodes it with `.decode("utf-8")`); on failure the
`CalledProcessError` carries that bytes output and prints as
`display`. -/
inductive CmdRes
  | ok (output : String)
  | fail (outputBytes : String) (display : String)
deriving DecidableEq, Repr

/-- Python membership test `needle in hay` where `needle` is `str` and
`hay` is `bytes` (the decoded content of the bytes is recorded as a
string).  In Python 3 testing a `str` against `bytes` raises
`TypeError`, so the test never yields a boolean. -/
def pyStrInBytes (_needle _hay : String) : Except PyExc Bool :=
  .error .typeError

/-- The environment of one job run: outcomes of the external effects.
`pull`, `clone1`, `clone2` are the results of the `git pull` call, the
first `git clone` call and the retried `git clone` call; `dockerSpawnErr`
is the display text of an exception raised while spawning or waiting on
the container, `dockerRetcode` and `dockerOutput` are the container exit
status and its streamed combined output, and `publishErr` is the display
text of an exception raised by `copy_tree`. -/
structure Env where
  pull : CmdRes
  clone1 : CmdRes
  clone2 : CmdRes
  dockerSpawnErr : Option String
  dockerRetcode : Int
  dockerOutput : String
  publishErr : Option String
deriving DecidableEq, Repr

/-- The observable per-book state: whether some process holds the lock,
whether the lock artifact exists on disk, and the log file. -/
structure World where
  lockHeld : Bool
  lockFileExists : Bool
  logExists : Bool
  logContent : String
deriving DecidableEq, Repr

/-- View a world as the filesystem facts the status evaluator reads. -/
def World.toFS (w : World) (mtimeIso : String) : FS :=
  ⟨w.lockFileExists, w.logExists, w.logContent, mtimeIso⟩

/-- The line `log_and_check_output` writes before running a command. -/
def logCmd (cmds : List String) : String :=
  String.intercalate " " cmds ++ "\n"

/-- The failure marker line written by the outer exception handler:
`print("FAILED: Something went wrong:", e, file=log)`. -/
def failLine (e : PyExc) : String :=
  "FAILED: Something went wrong: " ++ (e.pyStr ++ "\n")

/-- Outcome of the sync block: the text appended to the log, the
exception propagating to the outer handler (if any), and how many
`git clone` invocations were made. -/
structure SyncOut where
  logText : String
  exc : Option PyExc
  cloneAttempts : Nat
deriving DecidableEq, Repr

/-- The sync block of `do_update_github`: try `git pull`; on failure try
`git clone`; if that fails, test `"already exists" in e.output` — a
`str`-in-`bytes` test, so it raises `TypeError` — and only on a true
result wipe the clone directory and retry the clone once.  A command
that fails logs only its command line (`log_and_check_output` raises
before printing the output). -/
def syncStep (git url : String) (env : Env) : SyncOut :=
  match env.pull with
  | .ok out => ⟨logCmd [git, "pull"] ++ (out ++ "\n"), none, 0⟩
  | .fail _ _ =>
    let t0 := logCmd [git, "pull"]
    match env.clone1 with
    | .ok out => ⟨t0 ++ (logCmd [git, "clone", url, "./"] ++ (out ++ "\n")), none, 1⟩
    | .fail eout _ =>
      let t1 := t0 ++ logCmd [git, "clone", url, "./"]
      match pyStrInBytes "already exists" eout with
      | .error e => ⟨t1, some e, 1⟩
      | .ok true =>
        match env.clone2 with
        | .ok out => ⟨t1 ++ (logCmd [git, "clone", url, "./"] ++ (out ++ "\n")), none, 2⟩
        | .fail _ d => ⟨t1 ++ logCmd [git, "clone", url, "./"], some (.calledProcess d), 2⟩
      | .ok false => ⟨t1, none, 1⟩

/-- Trace of one run of the job: the resulting world plus counters for
the interesting effects. -/
structure JobTrace where
  world : World
  lockAcquired : Bool
  cloneAttempts : Nat
  dockerRuns : Nat
  publishRuns : Nat
deriving DecidableEq, Repr

/-- The celery task `do_update_github`.  If the lock is held the
acquisition raises `LockError` and the task returns with the world
untouched.  Otherwise the lock is acquired (creating the artifact), the
log is opened with mode `"w"` (truncated), the sync block runs, then the
container, then `copy_tree`, with `"SUCCESS"` printed on full success;
any exception from those steps is caught and logged as a failure marker
line; the `finally` block closes the lock and unlinks the artifact on
every one of those paths. -/
def runJob (git url : String) (env : Env) (w : World) : JobTrace :=
  if w.lockHeld then
    ⟨w, false, 0, 0, 0⟩
  else
    let s := syncStep git url env
    match s.exc with
    | some e =>
        ⟨⟨false, false, true, s.logText ++ failLine e⟩, true, s.cloneAttempts, 0, 0⟩
    | none =>
      match env.dockerSpawnErr with
      | some d =>
          ⟨⟨false, false, true, s.logText ++ failLine (.generic d)⟩,
            true, s.cloneAttempts, 0, 0⟩
      | none =>
        if env.dockerRetcode ≠ 0 then
          ⟨⟨false, false, true, s.logText ++ env.dockerOutput ++ failLine .buildFailed⟩,
            true, s.cloneAttempts, 1, 0⟩
        else
          match env.publishErr with
          | some d =>
              ⟨⟨false, false, true, s.logText ++ env.dockerOutput ++ failLine (.generic d)⟩,
                true, s.cloneAttempts, 1, 1⟩
          | none =>
              ⟨⟨false, false, true, s.logText ++ env.dockerOutput ++ "SUCCESS\n"⟩,
                true, s.cloneAttempts, 1, 1⟩

/-- The trigger `update_github`: the job is enqueued only when the lock
artifact is absent on disk. -/
def update_github_enqueues (w : World) : Bool :=
  !w.lockFileExists

/-- The job run on environment `env` takes one of the four failure
branches: sync fails (both `git pull` and the first `git clone` fail),
spawning the container raises, the container exits non-zero, or the
output copy raises. -/
def envFails (env : Env) : Bool :=
  (match env.pull, env.clone1 with
   | .fail _ _, .fail _ _ => true
   | _, _ => false)
  || env.dockerSpawnErr.isSome || decide (env.dockerRetcode ≠ 0)
  || env.publishErr.isSome

/-- Well-formed path segment: nonempty, not the dot segment, and free of
the separator. -/
def goodSeg (s : String) : Prop :=
  s ≠ "" ∧ s ≠ "." ∧ '/' ∉ s.data

instance goodSeg_decidable (s : String) : Decidable (goodSeg s) :=
  inferInstanceAs (Decidable (s ≠ "" ∧ s ≠ "." ∧ '/' ∉ s.data))

/-! Helper lemmas about strings and substring search. -/

theorem str_ext {s t : String} (h : s.data = t.data) : s = t := by
  cases s
  cases t
  exact congrArg String.mk h

theorem data_append (s t : String) : (s ++ t).data = s.data ++ t.data := by
  cases s
  cases t
  rfl

theorem isPre_mono (n : List Char) : ∀ l t : List Char,
    isPre n l = true → isPre n (l ++ t) = true := by
  induction n with
  | nil => intro l t _; rfl
  | cons a as ih =>
    intro l t h
    cases l with
    | nil => simp [isPre] at h
    | cons b bs =>
      simp only [isPre, Bool.and_eq_true, beq_iff_eq] at h ⊢
      exact ⟨h.1, ih bs t h.2⟩

theorem hasSub_of_isPre (n l : List Char) (h : isPre n l = true) :
    hasSub n l = true := by
  cases l with
  | nil => exact h
  | cons b bs => simp [hasSub, h]

theorem hasSub_append_right (n l1 l2 : List Char) (h : hasSub n l2 = true) :
    hasSub n (l1 ++ l2) = true := by
  induction l1 with
  | nil => simpa using h
  | cons a as ih => simp [hasSub, ih]

theorem strContains_append_right (a b n : String) (h : strContains b n = true) :
    strContains (a ++ b) n = true := by
  unfold strContains at h ⊢
  rw [data_append]
  exact hasSub_append_right _ _ _ h

theorem strContains_head (lit rest n : String) (h : isPre n.data lit.data = true) :
    strContains (lit ++ rest) n = true := by
  unfold strContains
  rw [data_append]
  exact hasSub_of_isPre _ _ (isPre_mono _ _ _ h)

theorem failLine_has_FAILED (e : PyExc) :
    strContains (failLine e) "FAILED" = true := by
  unfold failLine
  exact strContains_head _ _ _ (by decide)

theorem strContains_ne_nil {hay needle : String} (hn : needle.data ≠ [])
    (h : strContains hay needle = true) : hay.data.isEmpty = false := by
  cases hd : hay.data with
  | nil =>
    unfold strContains at h
    rw [hd] at h
    cases hn2 : needle.data with
    | nil => exact absurd hn2 hn
    | cons a as =>
      rw [hn2] at h
      simp [hasSub, isPre] at h
  | cons b bs => rfl

/-! Status evaluator facts. -/

theorem status_failed (b : BookBuilder) (fs : FS)
    (h1 : fs.lockExists = false) (h2 : fs.logExists = true)
    (hS : strContains fs.logContent "SUCCESS" = false)
    (hF : strContains fs.logContent "FAILED" = true) :
    (b.status fs).status = "failed" ∧ (b.status fs).log = some fs.logContent := by
  have hne : fs.logContent.data.isEmpty = false :=
    strContains_ne_nil (by decide) hF
  simp [BookBuilder.status, h1, h2, hS, hF, pyTruthy, hne]

theorem url_only_complete (b : BookBuilder) (fs : FS)
    (hurl : (b.status fs).url ≠ none) : (b.status fs).status = "complete" := by
  unfold BookBuilder.status at hurl ⊢
  by_cases hl : fs.lockExists = true
  · simp [hl] at hurl
  · simp only [Bool.not_eq_true] at hl
    by_cases hS : (pyTruthy (if fs.logExists then some fs.logContent else none)
        && strContains fs.logContent "SUCCESS") = true
    · simp [hl, hS]
    · by_cases hF : (pyTruthy (if fs.logExists then some fs.logContent else none)
          && strContains fs.logContent "FAILED") = true
      · simp [hl, hS, hF] at hurl
      · simp [hl, hS, hF] at hurl

/-- C2: whenever the lock file exists, the status query returns
`in-progress`, regardless of log existence and content. -/
theorem claim_C2 (b : BookBuilder) (fs : FS) (h : fs.lockExists = true) :
    (b.status fs).status = "in-progress" := by
  simp [BookBuilder.status, h]

theorem claim_C2_witness :
    (⟨true, true, "SUCCESS\n", "t"⟩ : FS).lockExists = true ∧
      ((⟨"alice/book", "github", "http://pub/alice/book"⟩ : BookBuilder).status
          ⟨true, true, "SUCCESS\n", "t"⟩).status = "in-progress" :=
  ⟨rfl, claim_C2 ⟨"alice/book", "github", "http://pub/alice/book"⟩
    ⟨true, true, "SUCCESS\n", "t"⟩ rfl⟩

/-- C3: with the lock absent and a log containing the success marker the
status is `complete` with the public URL attached, and the URL field is
populated only on `complete` results. -/
theorem claim_C3 (b : BookBuilder) (fs : FS)
    (h1 : fs.lockExists = false) (h2 : fs.logExists = true)
    (h3 : strContains fs.logContent "SUCCESS" = true) :
    ((b.status fs).status = "complete" ∧ (b.status fs).url = some b.base_url) ∧
      ∀ fs2 : FS, (b.status fs2).url ≠ none → (b.status fs2).status = "complete" := by
  have hne : fs.logContent.data.isEmpty = false :=
    strContains_ne_nil (by decide) h3
  constructor
  · constructor <;> simp [BookBuilder.status, h1, h2, h3, pyTruthy, hne]
  · exact fun fs2 hurl => url_only_complete b fs2 hurl

theorem claim_C3_witness :
    ((⟨false, true, "git pull\nSUCCESS\n", "t"⟩ : FS).lockExists = false ∧
        (⟨false, true, "git pull\nSUCCESS\n", "t"⟩ : FS).logExists = true ∧
        strContains "git pull\nSUCCESS\n" "SUCCESS" = true) ∧
      (((⟨"alice/book", "github", "http://pub/alice/book"⟩ : BookBuilder).status
            ⟨false, true, "git pull\nSUCCESS\n", "t"⟩).status = "complete" ∧
          ((⟨"alice/book", "github", "http://pub/alice/book"⟩ : BookBuilder).status
            ⟨false, true, "git pull\nSUCCESS\n", "t"⟩).url
              = some "http://pub/alice/book") :=
  ⟨⟨rfl, rfl, by decide⟩,
    (claim_C3 ⟨"alice/book", "github", "http://pub/alice/book"⟩
      ⟨false, true, "git pull\nSUCCESS\n", "t"⟩ rfl rfl (by decide)).1⟩

/-- C4 evaluated on the code: with the lock absent and no log file the
status evaluator returns the literal `"unkown"` — not `"unknown"` as the
spec states — with no log text and with the sentinel string `"unknown"`
in the timestamp slot; a marker-free log likewise yields `"unkown"`. -/
theorem claim_C4_code :
    ((⟨"alice/book", "github", "http://pub/alice/book"⟩ : BookBuilder).status
        ⟨false, false, "", ""⟩ = ⟨"unkown", none, "unknown", none⟩) ∧
      ((⟨"alice/book", "github", "http://pub/alice/book"⟩ : BookBuilder).status
          ⟨false, true, "git pull\nok\n", "2024-05-01T00:00:00"⟩).status = "unkown" ∧
      "unkown" ≠ "unknown" := by
  refine ⟨?_, ?_, ?_⟩ <;> decide

/-- C10: with the lock absent, a log containing both marker substrings is
classified `complete` (the success check runs first) with the URL
attached. -/
theorem claim_C10 (b : BookBuilder) (fs : FS)
    (h1 : fs.lockExists = false) (h2 : fs.logExists = true)
    (hS : strContains fs.logContent "SUCCESS" = true)
    (hF : strContains fs.logContent "FAILED" = true) :
    (b.status fs).status = "complete" ∧ (b.status fs).url = some b.base_url := by
  have hne : fs.logContent.data.isEmpty = false :=
    strContains_ne_nil (by decide) hS
  constructor <;> simp [BookBuilder.status, h1, h2, hS, pyTruthy, hne]

theorem claim_C10_witness :
    ((⟨false, true, "SUCCESS\nFAILED\n", "t"⟩ : FS).lockExists = false ∧
        strContains "SUCCESS\nFAILED\n" "SUCCESS" = true ∧
        strContains "SUCCESS\nFAILED\n" "FAILED" = true) ∧
      (((⟨"alice/book", "github", "http://pub/alice/book"⟩ : BookBuilder).status
            ⟨false, true, "SUCCESS\nFAILED\n", "t"⟩).status = "complete" ∧
          ((⟨"alice/book", "github", "http://pub/alice/book"⟩ : BookBuilder).status
            ⟨false, true, "SUCCESS\nFAILED\n", "t"⟩).url = some "http://pub/alice/book") :=
  ⟨⟨rfl, by decide, by decide⟩,
    claim_C10 ⟨"alice/book", "github", "http://pub/alice/book"⟩
      ⟨false, true, "SUCCESS\nFAILED\n", "t"⟩ rfl rfl (by decide) (by decide)⟩

/-! Build job facts. -/

theorem runJob_locks (git url : String) (env : Env) (w : World)
    (h : w.lockHeld = false) :
    (runJob git url env w).lockAcquired = true ∧
      (runJob git url env w).world.lockHeld = false ∧
      (runJob git url env w).world.lockFileExists = false ∧
      (runJob git url env w).world.logExists = true := by
  obtain ⟨pull, c1, c2, dsp, rc, dout, perr⟩ := env
  cases pull <;> cases c1 <;> cases dsp <;> cases perr <;> by_cases hr : rc = 0 <;>
    simp [runJob, syncStep, pyStrInBytes, h, hr]

theorem runJob_runs_le (git url : String) (env : Env) (w : World) :
    (runJob git url env w).dockerRuns ≤ 1 ∧ (runJob git url env w).publishRuns ≤ 1 := by
  obtain ⟨pull, c1, c2, dsp, rc, dout, perr⟩ := env
  by_cases h : w.lockHeld = true <;>
    cases pull <;> cases c1 <;> cases dsp <;> cases perr <;> by_cases hr : rc = 0 <;>
      simp [runJob, syncStep, pyStrInBytes, h, hr]

theorem runJob_indep (git url : String) (env : Env) (w w2 : World)
    (h : w.lockHeld = false) (h2 : w2.lockHeld = false) :
    runJob git url env w = runJob git url env w2 := by
  unfold runJob
  rw [if_neg (by simp [h]), if_neg (by simp [h2])]

theorem runJob_fail_shape (git url : String) (env : Env) (w : World)
    (h : w.lockHeld = false) (hf : envFails env = true) :
    ∃ pre e, (runJob git url env w).world
        = ⟨false, false, true, pre ++ failLine e⟩ := by
  obtain ⟨pull, c1, c2, dsp, rc, dout, perr⟩ := env
  cases pull <;> cases c1 <;> cases dsp <;> cases perr <;> by_cases hr : rc = 0 <;>
    simp [envFails, hr] at hf <;>
      simp [runJob, syncStep, pyStrInBytes, h, hr] <;>
        exact ⟨_, _, rfl⟩

/-- C1: whenever the job acquires the lock, the lock is released and the
on-disk artifact removed at job end on every exit path — success marker,
failure marker, or an exception during sync, container execution or
publishing — because the `finally` block runs in all of them. -/
theorem claim_C1 (git url : String) (env : Env) (w : World)
    (h : w.lockHeld = false) :
    (runJob git url env w).lockAcquired = true ∧
      (runJob git url env w).world.lockHeld = false ∧
      (runJob git url env w).world.lockFileExists = false :=
  ⟨(runJob_locks git url env w h).1, (runJob_locks git url env w h).2.1,
    (runJob_locks git url env w h).2.2.1⟩

theorem claim_C1_witness :
    (⟨false, false, false, ""⟩ : World).lockHeld = false ∧
      ((runJob "git" "https://github.com/alice/book"
          ⟨.ok "Already up to date.", .ok "", .ok "", none, 2, "build out\n", none⟩
          ⟨false, false, false, ""⟩).lockAcquired = true ∧
        (runJob "git" "https://github.com/alice/book"
          ⟨.ok "Already up to date.", .ok "", .ok "", none, 2, "build out\n", none⟩
          ⟨false, false, false, ""⟩).world.lockHeld = false ∧
        (runJob "git" "https://github.com/alice/book"
          ⟨.ok "Already up to date.", .ok "", .ok "", none, 2, "build out\n", none⟩
          ⟨false, false, false, ""⟩).world.lockFileExists = false) :=
  ⟨rfl, claim_C1 "git" "https://github.com/alice/book"
    ⟨.ok "Already up to date.", .ok "", .ok "", none, 2, "build out\n", none⟩
    ⟨false, false, false, ""⟩ rfl⟩

/-- C5 fails as stated: a failure-class build whose streamed container
output embeds the success-marker substring produces a log containing both
markers, and the status evaluator checks `"SUCCESS"` first, so the
subsequent status query reports `complete`, not `failed`.  Here the
container exits with status 2 (a build failure) after streaming
`"rendering: SUCCESS\n"` into the log. -/
theorem claim_C5_counterexample :
    envFails ⟨.ok "ok", .ok "", .ok "", none, 2, "rendering: SUCCESS\n", none⟩ = true ∧
      ((⟨"alice/book", "github", "http://pub/alice/book"⟩ : BookBuilder).status
          ((runJob "git" "https://github.com/alice/book"
              ⟨.ok "ok", .ok "", .ok "", none, 2, "rendering: SUCCESS\n", none⟩
              ⟨false, false, false, ""⟩).world.toFS "t")).status = "complete" ∧
      ((⟨"alice/book", "github", "http://pub/alice/book"⟩ : BookBuilder).status
          ((runJob "git" "https://github.com/alice/book"
              ⟨.ok "ok", .ok "", .ok "", none, 2, "rendering: SUCCESS\n", none⟩
              ⟨false, false, false, ""⟩).world.toFS "t")).status ≠ "failed" := by
  refine ⟨?_, ?_, ?_⟩ <;> decide

/-- C5 amended: every failure class — sync failure, container spawn
exception, container non-zero exit, publish failure — ends the job with a
failure marker line appended to the log and runs the container and the
publish step at most once; and provided the resulting log text does not
also contain the success-marker substring (which streamed external output
can embed, the case the counterexample exhibits), a subsequent status
query on the resulting world reports `failed` with the captured log
text. -/
theorem claim_C5 (b : BookBuilder) (git url mtime : String) (env : Env) (w : World)
    (hl : w.lockHeld = false) (hf : envFails env = true)
    (hs : strContains (runJob git url env w).world.logContent "SUCCESS" = false) :
    strContains (runJob git url env w).world.logContent "FAILED" = true ∧
      (b.status ((runJob git url env w).world.toFS mtime)).status = "failed" ∧
      (b.status ((runJob git url env w).world.toFS mtime)).log
          = some (runJob git url env w).world.logContent ∧
      (runJob git url env w).dockerRuns ≤ 1 ∧
      (runJob git url env w).publishRuns ≤ 1 := by
  obtain ⟨pre, e, hshape⟩ := runJob_fail_shape git url env w hl hf
  rw [hshape] at hs
  have hF : strContains (pre ++ failLine e) "FAILED" = true :=
    strContains_append_right _ _ _ (failLine_has_FAILED e)
  have hstat := status_failed b ⟨false, true, pre ++ failLine e, mtime⟩ rfl rfl hs hF
  have hruns := runJob_runs_le git url env w
  refine ⟨?_, ?_, ?_, hruns.1, hruns.2⟩
  · rw [hshape]; exact hF
  · rw [hshape]; exact hstat.1
  · rw [hshape]; exact hstat.2

theorem claim_C5_witness :
    ((⟨false, false, false, ""⟩ : World).lockHeld = false ∧
        envFails ⟨.ok "Already up to date.", .ok "", .ok "", none, 2, "building\n", none⟩
          = true ∧
        strContains (runJob "git" "https://github.com/alice/book"
            ⟨.ok "Already up to date.", .ok "", .ok "", none, 2, "building\n", none⟩
            ⟨false, false, false, ""⟩).world.logContent "SUCCESS" = false) ∧
      ((⟨"alice/book", "github", "http://pub/alice/book"⟩ : BookBuilder).status
          ((runJob "git" "https://github.com/alice/book"
              ⟨.ok "Already up to date.", .ok "", .ok "", none, 2, "building\n", none⟩
              ⟨false, false, false, ""⟩).world.toFS "t")).status = "failed" :=
  ⟨⟨rfl, by decide, by decide⟩,
    (claim_C5 ⟨"alice/book", "github", "http://pub/alice/book"⟩
      "git" "https://github.com/alice/book" "t"
      ⟨.ok "Already up to date.", .ok "", .ok "", none, 2, "building\n", none⟩
      ⟨false, false, false, ""⟩ rfl (by decide) (by decide)).2.1⟩

/-- C6 evaluated on the code: when `git pull` fails and `git clone` fails
with an already-exists diagnostic, the membership test
`"already exists" in e.output` is a `str`-in-`bytes` test and raises
`TypeError`; the clone is therefore attempted only once — never wiped and
retried — and the job ends with a failure marker. -/
theorem claim_C6_code :
    (syncStep "git" "https://github.com/alice/book"
        ⟨.fail "network down" "pull error",
          .fail "fatal: destination path already exists and is not an empty directory"
            "clone error", .ok "", none, 0, "", none⟩).exc = some PyExc.typeError ∧
      (runJob "git" "https://github.com/alice/book"
        ⟨.fail "network down" "pull error",
          .fail "fatal: destination path already exists and is not an empty directory"
            "clone error", .ok "", none, 0, "", none⟩
        ⟨false, false, false, ""⟩).cloneAttempts = 1 ∧
      strContains (runJob "git" "https://github.com/alice/book"
        ⟨.fail "network down" "pull error",
          .fail "fatal: destination path already exists and is not an empty directory"
            "clone error", .ok "", none, 0, "", none⟩
        ⟨false, false, false, ""⟩).world.logContent "FAILED" = true := by
  refine ⟨rfl, rfl, ?_⟩
  decide

/-- C7: on lock contention the job terminates without creating, truncating
or writing the log — the world is unchanged byte for byte — and the
trigger layer does not enqueue a job while the lock artifact exists. -/
theorem claim_C7 (git url : String) (env : Env) (w : World) :
    (w.lockHeld = true →
        (runJob git url env w).world = w ∧
          (runJob git url env w).lockAcquired = false) ∧
      (w.lockFileExists = true → update_github_enqueues w = false) := by
  constructor
  · intro h
    unfold runJob
    rw [if_pos h]
    exact ⟨rfl, rfl⟩
  · intro h
    simp [update_github_enqueues, h]

theorem claim_C7_witness :
    ((⟨true, true, true, "first build log\n"⟩ : World).lockHeld = true ∧
        (runJob "git" "https://github.com/alice/book"
            ⟨.ok "", .ok "", .ok "", none, 0, "", none⟩
            ⟨true, true, true, "first build log\n"⟩).world
          = ⟨true, true, true, "first build log\n"⟩) ∧
      ((⟨true, true, true, "first build log\n"⟩ : World).lockFileExists = true ∧
        update_github_enqueues ⟨true, true, true, "first build log\n"⟩ = false) :=
  ⟨⟨rfl, ((claim_C7 "git" "https://github.com/alice/book"
      ⟨.ok "", .ok "", .ok "", none, 0, "", none⟩
      ⟨true, true, true, "first build log\n"⟩).1 rfl).1⟩,
    ⟨rfl, (claim_C7 "git" "https://github.com/alice/book"
      ⟨.ok "", .ok "", .ok "", none, 0, "", none⟩
      ⟨true, true, true, "first build log\n"⟩).2 rfl⟩⟩

/-- C9: the log is truncated at build start — after two sequential builds
the final log equals what the second build alone writes from a fresh
world, with no residue of the first build's content. -/
theorem claim_C9 (git url : String) (e1 e2 : Env) (w0 : World)
    (h : w0.lockHeld = false) :
    (runJob git url e2 (runJob git url e1 w0).world).world.logContent
      = (runJob git url e2 ⟨false, false, false, ""⟩).world.logContent := by
  have h1 : (runJob git url e1 w0).world.lockHeld = false :=
    (runJob_locks git url e1 w0 h).2.1
  rw [runJob_indep git url e2 _ ⟨false, false, false, ""⟩ h1 rfl]

theorem claim_C9_witness :
    (⟨false, false, false, ""⟩ : World).lockHeld = false ∧
      (runJob "git" "https://github.com/alice/book"
          ⟨.ok "pull two", .ok "", .ok "", none, 0, "out two\n", none⟩
          (runJob "git" "https://github.com/alice/book"
            ⟨.ok "pull one", .ok "", .ok "", none, 2, "out one\n", none⟩
            ⟨false, false, false, ""⟩).world).world.logContent
        = (runJob "git" "https://github.com/alice/book"
            ⟨.ok "pull two", .ok "", .ok "", none, 0, "out two\n", none⟩
            ⟨false, false, false, ""⟩).world.logContent :=
  ⟨rfl, claim_C9 "git" "https://github.com/alice/book"
    ⟨.ok "pull one", .ok "", .ok "", none, 2, "out one\n", none⟩
    ⟨.ok "pull two", .ok "", .ok "", none, 0, "out two\n", none⟩
    ⟨false, false, false, ""⟩ rfl⟩

/-! Path derivation facts. -/

theorem empty_data : ("" : String).data = [] := rfl

theorem dot_data : ("." : String).data = ['.'] := rfl

theorem sep_data : ("/" : String).data = ['/'] := rfl

theorem splitSlash_no_sep (l : List Char) (h : '/' ∉ l) : splitSlash l = [l] := by
  induction l with
  | nil => rfl
  | cons c cs ih =>
    have hc : ¬c = '/' := by
      intro e
      exact h (by rw [e]; exact List.mem_cons_self _ _)
    have hcs : '/' ∉ cs := fun m => h (List.mem_cons_of_mem c m)
    simp [splitSlash, hc, ih hcs, consHead]

theorem splitSlash_append (a b : List Char) (h : '/' ∉ a) :
    splitSlash (a ++ '/' :: b) = a :: splitSlash b := by
  induction a with
  | nil => simp [splitSlash]
  | cons c cs ih =>
    have hc : ¬c = '/' := by
      intro e
      exact h (by rw [e]; exact List.mem_cons_self _ _)
    have hcs : '/' ∉ cs := fun m => h (List.mem_cons_of_mem c m)
    simp [splitSlash, hc, ih hcs, consHead]

theorem goodSeg_ne_nil (s : String) (h : goodSeg s) : s.data.isEmpty = false := by
  cases he : s.data with
  | nil => exact absurd (str_ext (he.trans empty_data.symm)) h.1
  | cons a as => rfl

theorem goodSeg_ne_dot (s : String) (h : goodSeg s) : (s.data == ['.']) = false := by
  apply beq_eq_false_iff_ne.mpr
  intro e
  exact h.2.1 (str_ext (e.trans dot_data.symm))

theorem pathParts_seg (s : String) (h : goodSeg s) : pathParts s = [s] := by
  unfold pathParts
  rw [splitSlash_no_sep s.data h.2.2]
  simp [List.filter, goodSeg_ne_nil s h, goodSeg_ne_dot s h]

theorem book_id_data (u r : String) :
    (u ++ "/" ++ r).data = u.data ++ '/' :: r.data := by
  rw [data_append, data_append, sep_data, List.append_assoc]
  rfl

theorem pathParts_two (u r : String) (hu : goodSeg u) (hr : goodSeg r) :
    pathParts (u ++ "/" ++ r) = [u, r] := by
  unfold pathParts
  rw [book_id_data, splitSlash_append u.data r.data hu.2.2,
    splitSlash_no_sep r.data hr.2.2]
  simp [List.filter, goodSeg_ne_nil u hu, goodSeg_ne_dot u hu,
    goodSeg_ne_nil r hr, goodSeg_ne_dot r hr]

theorem head_no_sep {s : String} (h : goodSeg s) (t : List Char) :
    ¬(s.data ++ t).head? = some '/' := by
  intro hh
  cases he : s.data with
  | nil => exact absurd (str_ext (he.trans empty_data.symm)) h.1
  | cons c cs =>
    rw [he] at hh
    simp only [List.cons_append, List.head?_cons, Option.some.injEq] at hh
    apply h.2.2
    rw [he, hh]
    exact List.mem_cons_self _ _

theorem join_seg (p : PurePath) (s : String) (h : goodSeg s) :
    p.join s = ⟨p.absolute, p.parts ++ [s]⟩ := by
  have h0 : ¬s.data.head? = some '/' := by
    have := head_no_sep h []
    rwa [List.append_nil] at this
  unfold PurePath.join
  rw [if_neg h0, pathParts_seg s h]

theorem join_two (p : PurePath) (u r : String) (hu : goodSeg u) (hr : goodSeg r) :
    p.join (u ++ "/" ++ r) = ⟨p.absolute, p.parts ++ [u, r]⟩ := by
  have h0 : ¬(u ++ "/" ++ r).data.head? = some '/' := by
    rw [book_id_data]
    exact head_no_sep hu ('/' :: r.data)
  unfold PurePath.join
  rw [if_neg h0, pathParts_two u r hu hr]

theorem lockfile_eq (cfg : Config) (s u r bu : String)
    (hs : goodSeg s) (hu : goodSeg u) (hr : goodSeg r) :
    (BookBuilder.mk (u ++ "/" ++ r) s bu).lockfile cfg
      = ⟨(pathOf cfg.JAILPATH).absolute,
          (pathOf cfg.JAILPATH).parts ++ [s, u, r, "lockfile"]⟩ := by
  show (((pathOf cfg.JAILPATH).join s).join (u ++ "/" ++ r)).join "lockfile" = _
  rw [join_seg _ _ hs, join_two _ _ _ hu hr,
    join_seg _ _ (by decide : goodSeg "lockfile")]
  simp

theorem logfile_eq (cfg : Config) (s u r bu : String)
    (hs : goodSeg s) (hu : goodSeg u) (hr : goodSeg r) :
    (BookBuilder.mk (u ++ "/" ++ r) s bu).logfile cfg
      = ⟨(pathOf cfg.JAILPATH).absolute,
          (pathOf cfg.JAILPATH).parts ++ [s, u, r, "build.log"]⟩ := by
  show (((pathOf cfg.JAILPATH).join s).join (u ++ "/" ++ r)).join "build.log" = _
  rw [join_seg _ _ hs, join_two _ _ _ hu hr,
    join_seg _ _ (by decide : goodSeg "build.log")]
  simp

theorem clonedir_eq (cfg : Config) (s u r bu : String)
    (hs : goodSeg s) (hu : goodSeg u) (hr : goodSeg r) :
    (BookBuilder.mk (u ++ "/" ++ r) s bu).clonedir cfg
      = ⟨(pathOf cfg.JAILPATH).absolute,
          (pathOf cfg.JAILPATH).parts ++ [s, u, r, "clone"]⟩ := by
  show (((pathOf cfg.JAILPATH).join s).join (u ++ "/" ++ r)).join "clone" = _
  rw [join_seg _ _ hs, join_two _ _ _ hu hr,
    join_seg _ _ (by decide : goodSeg "clone")]
  simp

theorem outputdir_eq (cfg : Config) (s u r bu : String)
    (hs : goodSeg s) (hu : goodSeg u) (hr : goodSeg r) :
    (BookBuilder.mk (u ++ "/" ++ r) s bu).outputdir cfg
      = ⟨(pathOf cfg.PUBLISHPATH).absolute,
          (pathOf cfg.PUBLISHPATH).parts ++ [s, u, r]⟩ := by
  show ((pathOf cfg.PUBLISHPATH).join s).join (u ++ "/" ++ r) = _
  rw [join_seg _ _ hs, join_two _ _ _ hu hr]
  simp

theorem segs_of_append_eq {J : List String} {s u r s2 u2 r2 : String}
    {t : List String}
    (h : J ++ (s :: u :: r :: t) = J ++ (s2 :: u2 :: r2 :: t)) :
    s = s2 ∧ u = u2 ∧ r = r2 := by
  have h2 := List.append_cancel_left h
  simp at h2
  exact ⟨h2.1, h2.2.1, h2.2.2⟩

/-- C8 fails as stated: path derivation over arbitrary `(service,
book-id)` identities is not injective.  The distinct identities
`("a", "b/c")` and `("a/b", "c")` collide on all four derived paths, and
even for well-formed segments a cross-kind collision between one
identity's output path and another's lock path occurs when the
configured roots overlap. -/
theorem claim_C8_counterexample :
    (((("a" : String), ("b/c" : String)) ≠ (("a/b" : String), ("c" : String))) ∧
        (BookBuilder.mk "b/c" "a" "x").lockfile ⟨"jail", "pub"⟩
          = (BookBuilder.mk "c" "a/b" "x").lockfile ⟨"jail", "pub"⟩ ∧
        (BookBuilder.mk "b/c" "a" "x").logfile ⟨"jail", "pub"⟩
          = (BookBuilder.mk "c" "a/b" "x").logfile ⟨"jail", "pub"⟩ ∧
        (BookBuilder.mk "b/c" "a" "x").clonedir ⟨"jail", "pub"⟩
          = (BookBuilder.mk "c" "a/b" "x").clonedir ⟨"jail", "pub"⟩ ∧
        (BookBuilder.mk "b/c" "a" "x").outputdir ⟨"jail", "pub"⟩
          = (BookBuilder.mk "c" "a/b" "x").outputdir ⟨"jail", "pub"⟩) ∧
      (goodSeg "a" ∧ goodSeg "b" ∧ goodSeg "lockfile" ∧ goodSeg "g" ∧
        ((("a" : String), ("b/lockfile" : String)) ≠ (("g" : String), ("a/b" : String))) ∧
        (BookBuilder.mk "b/lockfile" "a" "x").outputdir ⟨"j", "j/g"⟩
          = (BookBuilder.mk "a/b" "g" "x").lockfile ⟨"j", "j/g"⟩) := by
  constructor <;> decide

/-- C8 amended: for identities whose service is a single well-formed path
segment and whose book id is exactly two well-formed segments joined by
the separator, each of the four path derivations is injective — distinct
identities yield distinct lock paths, distinct log paths, distinct
working-copy paths and distinct output paths. -/
theorem claim_C8_amended (cfg : Config) (s u r bu s2 u2 r2 bu2 : String)
    (hs : goodSeg s) (hu : goodSeg u) (hr : goodSeg r)
    (hs2 : goodSeg s2) (hu2 : goodSeg u2) (hr2 : goodSeg r2)
    (hne : (s, u ++ "/" ++ r) ≠ (s2, u2 ++ "/" ++ r2)) :
    (BookBuilder.mk (u ++ "/" ++ r) s bu).lockfile cfg
        ≠ (BookBuilder.mk (u2 ++ "/" ++ r2) s2 bu2).lockfile cfg ∧
      (BookBuilder.mk (u ++ "/" ++ r) s bu).logfile cfg
        ≠ (BookBuilder.mk (u2 ++ "/" ++ r2) s2 bu2).logfile cfg ∧
      (BookBuilder.mk (u ++ "/" ++ r) s bu).clonedir cfg
        ≠ (BookBuilder.mk (u2 ++ "/" ++ r2) s2 bu2).clonedir cfg ∧
      (BookBuilder.mk (u ++ "/" ++ r) s bu).outputdir cfg
        ≠ (BookBuilder.mk (u2 ++ "/" ++ r2) s2 bu2).outputdir cfg := by
  have key : ∀ (A : Bool) (P t : List String),
      (⟨A, P ++ (s :: u :: r :: t)⟩ : PurePath) ≠ ⟨A, P ++ (s2 :: u2 :: r2 :: t)⟩ := by
    intro A P t he
    injection he with hA hl
    obtain ⟨e1, e2, e3⟩ := segs_of_append_eq hl
    exact hne (by rw [e1, e2, e3])
  refine ⟨?_, ?_, ?_, ?_⟩
  · rw [lockfile_eq cfg s u r bu hs hu hr,
      lockfile_eq cfg s2 u2 r2 bu2 hs2 hu2 hr2]
    exact key _ _ ["lockfile"]
  · rw [logfile_eq cfg s u r bu hs hu hr,
      logfile_eq cfg s2 u2 r2 bu2 hs2 hu2 hr2]
    exact key _ _ ["build.log"]
  · rw [clonedir_eq cfg s u r bu hs hu hr,
      clonedir_eq cfg s2 u2 r2 bu2 hs2 hu2 hr2]
    exact key _ _ ["clone"]
  · rw [outputdir_eq cfg s u r bu hs hu hr,
      outputdir_eq cfg s2 u2 r2 bu2 hs2 hu2 hr2]
    exact key _ _ []

theorem claim_C8_witness :
    (goodSeg "github" ∧ goodSeg "alice" ∧ goodSeg "book" ∧ goodSeg "carol" ∧
        ((("github" : String), ("alice" : String) ++ "/" ++ "book")
          ≠ (("github" : String), ("carol" : String) ++ "/" ++ "book"))) ∧
      ((BookBuilder.mk (("alice" : String) ++ "/" ++ "book") "github" "x").lockfile
            ⟨"jail", "pub"⟩
          ≠ (BookBuilder.mk (("carol" : String) ++ "/" ++ "book") "github" "y").lockfile
            ⟨"jail", "pub"⟩ ∧
        (BookBuilder.mk (("alice" : String) ++ "/" ++ "book") "github" "x").logfile
            ⟨"jail", "pub"⟩
          ≠ (BookBuilder.mk (("carol" : String) ++ "/" ++ "book") "github" "y").logfile
            ⟨"jail", "pub"⟩ ∧
        (BookBuilder.mk (("alice" : String) ++ "/" ++ "book") "github" "x").clonedir
            ⟨"jail", "pub"⟩
          ≠ (BookBuilder.mk (("carol" : String) ++ "/" ++ "book") "github" "y").clonedir
            ⟨"jail", "pub"⟩ ∧
        (BookBuilder.mk (("alice" : String) ++ "/" ++ "book") "github" "x").outputdir
            ⟨"jail", "pub"⟩
          ≠ (BookBuilder.mk (("carol" : String) ++ "/" ++ "book") "github" "y").outputdir
            ⟨"jail", "pub"⟩) :=
  ⟨⟨by decide, by decide, by decide, by decide, by decide⟩,
    claim_C8_amended ⟨"jail", "pub"⟩ "github" "alice" "book" "x" "github" "carol" "book" "y"
      (by decide) (by decide) (by decide) (by decide) (by decide) (by decide) (by decide)⟩

end Qqublish
